import Mathlib

/-!
Verification development for the multi-embedding face identification
subsystem of an employee attendance tracker.

The development shallowly embeds the relevant Python code:

* `app/models/face_embedding.py` — the `FaceEmbedding` row type and its
  query helpers (`get_all_embeddings`).
* `app/services/face_service.py` — the multi-embedding methods of
  `FaceService`: `add_face_embedding`, `set_primary_embedding`,
  `delete_face_embedding`, `has_any_embeddings`, `get_employee_embeddings`,
  `get_all_face_embeddings_multi`, `recognize_employee_multi`.
* `app/services/face_detection.py` — `FaceDetector.find_face_distance`
  (delegating to the third-party `face_recognition.face_distance`, i.e.
  `np.linalg.norm(known - query, axis=1)` with numpy broadcasting).
* `app/utils/image_utils.py` — `ImageProcessor.detect_face_quality`.

Modelling conventions: float vectors become lists of exact rationals;
distances and standard deviations, which involve square roots, live in `ℝ`;
the database session is a `Store` value, and each mutating service method
maps a store to a new store plus a structured result, with an explicit
`commitOk` flag standing for whether the `db.commit()` persistence call
succeeds (on failure the method runs `db.rollback()`, i.e. returns the
original store, exactly as the `except` blocks in the source do).
-/

namespace AttendanceFace

/-- One row of the `face_embeddings` table (`app/models/face_embedding.py`).
The pickled `embedding_data` blob round-trips through
`set_embedding`/`get_embedding` as the identity on the stored vector, so the
vector is kept directly as `embedding`; `created_at` is an abstract
monotone timestamp supplied by the caller of `add_face_embedding`. -/
structure FaceEmbeddingRec where
  id : Nat
  employee_code : String
  variant_type : String
  embedding_type : String
  description : Option String
  photo_path : Option String
  quality_score : Option ℚ
  is_primary : Bool
  is_active : Bool
  created_at : Nat
  embedding : List ℚ
deriving DecidableEq, Repr

/-- The persistent state seen by `FaceService`: the set of employee codes
present in the `employees` table, the `face_embeddings` rows, and the next
autoincrement primary key.  `id` is the table's primary key, so freshly
inserted rows receive `nextId` and `nextId` is bumped. -/
structure Store where
  employees : List String
  records : List FaceEmbeddingRec
  nextId : Nat
deriving DecidableEq, Repr

/-- Distinct message strings produced by the mutating store operations in
`face_service.py`; each constructor stands for one distinct literal:
`employeeNotFound` ↦ "Employee ... not found",
`embeddingAdded` ↦ "Face embedding added successfully",
`addEmbeddingFailed` ↦ "Failed to add embedding: ...",
`embeddingNotFound` ↦ "Embedding ... not found",
`primarySet` ↦ "Primary embedding set successfully",
`setPrimaryFailed` ↦ "Failed to set primary: ...",
`embeddingDeleted` ↦ "Face embedding deleted successfully",
`deletionFailed` ↦ "Deletion failed: ...". -/
inductive OpMsg where
  | employeeNotFound
  | embeddingAdded
  | addEmbeddingFailed
  | embeddingNotFound
  | primarySet
  | setPrimaryFailed
  | embeddingDeleted
  | deletionFailed
deriving DecidableEq, Repr

/-- Structured result dictionary returned by the mutating store operations
(success flag, message, and the operation-specific payload keys; keys absent
from a given dictionary are `none`). -/
structure OpResult where
  success : Bool
  message : OpMsg
  employee_code : Option String
  embedding_id : Option Nat
  variant_type : Option String
  is_primary : Option Bool
deriving DecidableEq, Repr

/-- `FaceService.has_any_embeddings` (face_service.py:855): counts the
active `face_embeddings` rows of the employee and tests the count positive. -/
def has_any_embeddings (s : Store) (employee_code : String) : Bool :=
  s.records.any fun r => r.employee_code == employee_code && r.is_active

/-- Row-level effect of the `UPDATE ... SET is_primary = false` query:
a row of the employee that currently has the flag set loses it, every other
row is untouched. -/
def clearPrimaryFlag (employee_code : String) (r : FaceEmbeddingRec) :
    FaceEmbeddingRec :=
  if r.employee_code == employee_code && r.is_primary then
    { r with is_primary := false }
  else r

/-- The `UPDATE` issued by both `add_face_embedding` (face_service.py:513)
and `set_primary_embedding` (face_service.py:828): clear `is_primary` on
every row of the employee that currently has it set (the query filters only
by `employee_code` and `is_primary`, not by `is_active`). -/
def clearPrimaries (recs : List FaceEmbeddingRec) (employee_code : String) :
    List FaceEmbeddingRec :=
  recs.map (clearPrimaryFlag employee_code)

/-- `FaceService.add_face_embedding` (face_service.py:479).  Steps of the
source: reject if the employee is unknown; if `set_as_primary`, clear other
primaries; insert the new row with
`is_primary = set_as_primary or (not has_any_embeddings employee_code)` and
`is_active = True`; commit.  `commitOk` models whether `db.commit()`
succeeds; on failure the `except` block rolls the session back (the
original store is kept) and returns a failure dictionary. -/
def add_face_embedding (s : Store) (employee_code : String) (embedding : List ℚ)
    (variant_type embedding_type : String) (description photo_path : Option String)
    (quality_score : Option ℚ) (set_as_primary : Bool)
    (now : Nat) (commitOk : Bool) : Store × OpResult :=
  if employee_code ∈ s.employees then
    let recs1 := if set_as_primary then clearPrimaries s.records employee_code
                 else s.records
    let newRec : FaceEmbeddingRec :=
      { id := s.nextId
        employee_code := employee_code
        variant_type := variant_type
        embedding_type := embedding_type
        description := description
        photo_path := photo_path
        quality_score := quality_score
        is_primary := set_as_primary || !has_any_embeddings s employee_code
        is_active := true
        created_at := now
        embedding := embedding }
    if commitOk then
      ({ s with records := recs1 ++ [newRec], nextId := s.nextId + 1 },
       { success := true, message := .embeddingAdded,
         employee_code := some employee_code, embedding_id := some newRec.id,
         variant_type := some variant_type, is_primary := some newRec.is_primary })
    else
      (s, { success := false, message := .addEmbeddingFailed,
            employee_code := some employee_code, embedding_id := none,
            variant_type := none, is_primary := none })
  else
    (s, { success := false, message := .employeeNotFound,
          employee_code := some employee_code, embedding_id := none,
          variant_type := none, is_primary := none })

/-- Row-level effect of `embedding.is_primary = True`: the row keyed `eid`
gains the flag, every other row is untouched. -/
def setPrimaryFlag (eid : Nat) (r : FaceEmbeddingRec) : FaceEmbeddingRec :=
  if r.id == eid then { r with is_primary := true } else r

/-- Setting `is_primary := true` on the row whose primary key is `eid`
(the object mutation `embedding.is_primary = True` at face_service.py:834;
`id` is the table's primary key, so exactly the found row is affected). -/
def setPrimaryById (recs : List FaceEmbeddingRec) (eid : Nat) :
    List FaceEmbeddingRec :=
  recs.map (setPrimaryFlag eid)

/-- `FaceService.set_primary_embedding` (face_service.py:807): look the row
up by primary key; if absent return the not-found failure; otherwise clear
the other primaries of the same employee, set this row primary, and commit
— all inside one transaction, rolled back wholesale if `db.commit()`
fails. -/
def set_primary_embedding (s : Store) (eid : Nat) (commitOk : Bool) :
    Store × OpResult :=
  match s.records.find? (fun r => r.id == eid) with
  | none =>
    (s, { success := false, message := .embeddingNotFound,
          employee_code := none, embedding_id := some eid,
          variant_type := none, is_primary := none })
  | some rec =>
    let recs2 := setPrimaryById (clearPrimaries s.records rec.employee_code) eid
    if commitOk then
      ({ s with records := recs2 },
       { success := true, message := .primarySet,
         employee_code := some rec.employee_code, embedding_id := some eid,
         variant_type := none, is_primary := none })
    else
      (s, { success := false, message := .setPrimaryFailed,
            employee_code := none, embedding_id := some eid,
            variant_type := none, is_primary := none })

/-- `FaceService.delete_face_embedding` (face_service.py:733): look the row
up by primary key; if absent return the not-found failure; otherwise delete
the row and commit, rolling back on persistence failure. -/
def delete_face_embedding (s : Store) (eid : Nat) (commitOk : Bool) :
    Store × OpResult :=
  match s.records.find? (fun r => r.id == eid) with
  | none =>
    (s, { success := false, message := .embeddingNotFound,
          employee_code := none, embedding_id := some eid,
          variant_type := none, is_primary := none })
  | some rec =>
    if commitOk then
      ({ s with records := s.records.filter fun r => !(r.id == eid) },
       { success := true, message := .embeddingDeleted,
         employee_code := some rec.employee_code, embedding_id := some eid,
         variant_type := none, is_primary := none })
    else
      (s, { success := false, message := .deletionFailed,
            employee_code := none, embedding_id := some eid,
            variant_type := none, is_primary := none })

/-- The comparison realising `ORDER BY is_primary DESC, created_at DESC`
used by `FaceEmbedding.get_all_embeddings` (face_embedding.py:96):
`a` may come before `b` when `a` has the strictly larger primary rank, or
equal rank and a creation time at least as recent. -/
def embLe (a b : FaceEmbeddingRec) : Bool :=
  let ra : Nat := if a.is_primary then 1 else 0
  let rb : Nat := if b.is_primary then 1 else 0
  decide (rb < ra) || (decide (ra = rb) && decide (b.created_at ≤ a.created_at))

/-- `FaceEmbedding.get_all_embeddings` (face_embedding.py:90): the rows of
one employee, optionally restricted to active ones, ordered by
`is_primary DESC, created_at DESC`. -/
def get_all_embeddings (recs : List FaceEmbeddingRec) (employee_code : String)
    (active_only : Bool) : List FaceEmbeddingRec :=
  let q := recs.filter fun r => r.employee_code == employee_code
  let q := if active_only then q.filter (fun r => r.is_active) else q
  q.mergeSort embLe

/-- `FaceService.get_employee_embeddings` (face_service.py:556): delegates
to `FaceEmbedding.get_all_embeddings` (the `except` fallback to `[]` is
unreachable in the model, where the query is total). -/
def get_employee_embeddings (s : Store) (employee_code : String)
    (active_only : Bool) : List FaceEmbeddingRec :=
  get_all_embeddings s.records employee_code active_only

/-- Python truthiness of the `embedding_type` filter argument at
face_service.py:614 (`if embedding_type:`): `None` and the empty string
disable the filter. -/
def typeFilterOk (embedding_type : Option String) (r : FaceEmbeddingRec) : Bool :=
  match embedding_type with
  | none => true
  | some t => if t == "" then true else r.embedding_type == t

/-- Python truthiness of the `embedding_dim` filter argument at
face_service.py:627 (`if embedding_dim and embedding.size != embedding_dim`):
`None` and `0` disable the filter; otherwise a row whose vector length
disagrees is skipped (`continue`), not an error. -/
def dimFilterOk (embedding_dim : Option Nat) (len : Nat) : Bool :=
  match embedding_dim with
  | none => true
  | some d => if d == 0 then true else len == d

/-- `FaceService.get_all_face_embeddings_multi` (face_service.py:597): all
active rows, optionally filtered by `embedding_type`, then a loop that
skips rows whose decoded vector is missing (never, in the model) or whose
length fails the optional `embedding_dim` check, accumulating the vectors
and the owning employee codes in parallel lists. -/
def get_all_face_embeddings_multi (s : Store) (embedding_type : Option String)
    (embedding_dim : Option Nat) : List (List ℚ) × List String :=
  let rows := s.records.filter fun r => r.is_active && typeFilterOk embedding_type r
  let rows := rows.filter fun r => dimFilterOk embedding_dim r.embedding.length
  (rows.map (·.embedding), rows.map (·.employee_code))

/-- Broadcast indexing of a 1-d numpy array inside an operation whose
result axis has a larger length: an axis of length 1 is stretched, i.e.
index 0 is read everywhere; otherwise the index is read directly. -/
def bget (v : List ℚ) (j : Nat) : ℚ :=
  if v.length = 1 then v.headI else v.getD j 0

/-- Sum over the broadcast result axis of the squared componentwise
difference of two 1-d arrays, the quantity under the square root in
`np.linalg.norm(known - query, axis=1)`. -/
def sqDiffSum (k q : List ℚ) (n : Nat) : ℚ :=
  ((List.range n).map fun j => (bget k j - bget q j) ^ 2).sum

/-- Semantics of the third-party call
`face_recognition.face_distance(known_encodings, face_to_compare)`, which is
`np.linalg.norm(np.asarray(known) - query, axis=1)`:
`none` models the `ValueError` numpy raises when the list of known
encodings is ragged or the trailing dimensions are incompatible
(`L ≠ M` with neither equal to 1); otherwise one Euclidean norm per known
row, computed over the broadcast axis. -/
noncomputable def faceDistanceNp (known : List (List ℚ)) (q : List ℚ) :
    Option (List ℝ) :=
  match known with
  | [] => some []
  | k0 :: _ =>
    let L := k0.length
    if known.all (fun k => k.length == L) then
      if L = q.length ∨ L = 1 ∨ q.length = 1 then
        let n := if L = 1 then q.length else L
        some (known.map fun k => Real.sqrt ((sqDiffSum k q n : ℚ) : ℝ))
      else none
    else none

/-- `FaceDetector.find_face_distance` (face_detection.py:107): empty known
list short-circuits to `[]`; any exception from the numpy computation is
caught and also yields `[]`; otherwise the distance list. -/
noncomputable def find_face_distance (face_encoding : List ℚ)
    (known_encodings : List (List ℚ)) : List ℝ :=
  if known_encodings.isEmpty then []
  else
    match faceDistanceNp known_encodings face_encoding with
    | some ds => ds
    | none => []

/-- Distinct message strings produced by `recognize_employee_multi`
(face_service.py:646); each constructor stands for one distinct literal:
`noRegisteredFaces` ↦ "No registered faces found",
`couldNotCalculate` ↦ "Could not calculate face distances",
`recognized` ↦ "Employee recognized",
`lowConfidence` ↦ "Face detected but confidence too low (...). Please
register your face.",
`noMatch` ↦ "No matching face found. Please register your face.". -/
inductive RecogMsg where
  | noRegisteredFaces
  | couldNotCalculate
  | recognized
  | lowConfidence
  | noMatch
deriving DecidableEq, Repr

/-- Structured recognition result dictionary: success flag, message,
optional employee code, confidence, and the minimum distance when one was
computed (the key is absent from the dictionary otherwise). -/
structure RecogResult where
  success : Bool
  message : RecogMsg
  employee_code : Option String
  confidence : ℝ
  distance : Option ℝ

/-- Python `min` over a list of floats; the source only applies it to a
nonempty list (the empty default is never used). -/
noncomputable def listMin : List ℝ → ℝ
  | [] => 0
  | x :: xs => xs.foldl min x

open Classical in
/-- `FaceService.recognize_employee_multi` (face_service.py:646) on its
default `use_multi_embedding=True` path: pull the gallery via
`get_all_face_embeddings_multi()` — note: with no `embedding_type` and no
`embedding_dim` argument — report the no-faces result on an empty gallery,
the calculation-failure result on an empty distance list, and otherwise
apply the two-stage gate to the minimum distance: strictly below
`tolerance`, then confidence `1 - distance` at least `0.6`.
`best_match_index` is `distances.index(min_distance)`, the first position
holding the minimum. -/
noncomputable def recognize_employee_multi (tolerance : ℝ) (s : Store)
    (face_encoding : List ℚ) : RecogResult :=
  let g := get_all_face_embeddings_multi s none none
  if g.1.isEmpty then
    { success := false, message := .noRegisteredFaces,
      employee_code := none, confidence := 0, distance := none }
  else
    let distances := find_face_distance face_encoding g.1
    if distances.isEmpty then
      { success := false, message := .couldNotCalculate,
        employee_code := none, confidence := 0, distance := none }
    else
      let min_distance := listMin distances
      let best_match_index := distances.findIdx fun d => decide (d = min_distance)
      let best_employee_code := g.2.getD best_match_index ""
      if min_distance < tolerance then
        let confidence := 1 - min_distance
        if (0.6 : ℝ) ≤ confidence then
          { success := true, message := .recognized,
            employee_code := some best_employee_code,
            confidence := confidence, distance := some min_distance }
        else
          { success := false, message := .lowConfidence,
            employee_code := none, confidence := confidence,
            distance := some min_distance }
      else
        { success := false, message := .noMatch,
          employee_code := none, confidence := 0,
          distance := some min_distance }

/-- A BGR pixel of the OpenCV input image, with channel intensities as
exact rationals (the uint8 quantisation of the camera image and of
`cv2.cvtColor` is not modelled; it does not affect the claims, which are
about the thresholds and the score arithmetic). -/
structure Pixel where
  b : ℚ
  g : ℚ
  r : ℚ
deriving DecidableEq, Repr

/-- The grayscale value of `cv2.cvtColor(..., cv2.COLOR_BGR2GRAY)`:
`0.299 R + 0.587 G + 0.114 B`. -/
def grayOf (p : Pixel) : ℚ :=
  299 / 1000 * p.r + 587 / 1000 * p.g + 114 / 1000 * p.b

/-- The numpy slice `image[top:bottom, left:right]` extracting the face
region (face_locations carry non-negative pixel coordinates; slices clamp
to the array bounds and an inverted range is empty). -/
def cropRegion (image : List (List Pixel)) (top right bottom left : Nat) :
    List (List Pixel) :=
  ((image.drop top).take (bottom - top)).map fun row =>
    (row.drop left).take (right - left)

/-- `np.mean` of a list of scalars. -/
def listMean (vals : List ℚ) : ℚ := vals.sum / vals.length

/-- `np.var` / the `.var()` method of a list of scalars: the mean squared
deviation from the mean (population variance, `ddof = 0`). -/
def listVar (vals : List ℚ) : ℚ :=
  listMean (vals.map fun x => (x - listMean vals) ^ 2)

/-- OpenCV `borderInterpolate` for `BORDER_REFLECT_101` (the default border
of `cv2.Laplacian`), restricted to the offsets `-1 … len` that a 3×3 kernel
produces: reflection without repeating the edge pixel, and a
one-pixel axis maps every offset to 0. -/
def reflect101 (p : Int) (len : Nat) : Nat :=
  if len ≤ 1 then 0
  else if p < 0 then (-p).toNat
  else if p ≥ len then 2 * len - 2 - p.toNat
  else p.toNat

/-- Entry read of a grayscale matrix under the `BORDER_REFLECT_101`
border. -/
def grayAt (gr : List (List ℚ)) (i j : Int) : ℚ :=
  let h := gr.length
  let w := (gr.headD []).length
  (gr.getD (reflect101 i h) []).getD (reflect101 j w) 0

/-- `cv2.Laplacian(gray, cv2.CV_64F)` with the default aperture
`ksize = 1`, i.e. convolution with the kernel `[0 1 0; 1 -4 1; 0 1 0]`,
flattened to the list of all response values (row-major, like
`np.ndarray.var` consumes them). -/
def laplacianVals (gr : List (List ℚ)) : List ℚ :=
  let h := gr.length
  let w := (gr.headD []).length
  (List.range h).flatMap fun i =>
    (List.range w).map fun j =>
      grayAt gr (i - 1) j + grayAt gr (i + 1) j +
        grayAt gr i (j - 1) + grayAt gr i (j + 1) - 4 * grayAt gr i j

/-- Quality metrics dictionary returned by `detect_face_quality`
(image_utils.py:135); the `laplacian_variance` and `face_ratio` keys are
present only in the non-degenerate branch. -/
structure QualityResult where
  quality_score : Nat
  is_blurry : Bool
  is_dark : Bool
  is_small : Bool
  brightness : ℚ
  contrast : ℝ
  laplacian_variance : Option ℚ
  face_ratio : Option ℚ

open Classical in
/-- `ImageProcessor.detect_face_quality` (image_utils.py:135): crop the
face region; a zero-size region short-circuits to score 0 with all flags
set (and no exception); otherwise compute mean brightness, standard
deviation (contrast), Laplacian variance and the face-to-image area ratio
— note the areas come from the box coordinates and the full image shape,
not the clamped crop — classify the three flags, accumulate the score and
cap it at 100. -/
noncomputable def detect_face_quality (image : List (List Pixel))
    (top right bottom left : Nat) : QualityResult :=
  let region := cropRegion image top right bottom left
  let grays := region.map fun row => row.map grayOf
  let vals := grays.flatten
  if vals.isEmpty then
    { quality_score := 0, is_blurry := true, is_dark := true,
      is_small := true, brightness := 0, contrast := 0,
      laplacian_variance := none, face_ratio := none }
  else
    let brightness := listMean vals
    let contrast : ℝ := Real.sqrt ((listVar vals : ℚ) : ℝ)
    let laplacian_var := listVar (laplacianVals grays)
    let face_area : ℚ := ((bottom - top) * (right - left) : Nat)
    let image_area : ℚ := (image.length * (image.headD []).length : Nat)
    let face_ratio := face_area / image_area
    let is_blurry := decide (laplacian_var < 100)
    let is_dark := decide (brightness < 50)
    let is_small := decide (face_ratio < 1 / 100)
    let score1 : Nat :=
      (if is_blurry then 0 else 30) + (if is_dark then 0 else 30) +
        (if is_small then 0 else 20)
    let score2 : Nat := score1 +
      (if 50 ≤ brightness ∧ brightness ≤ 200 then 10
       else if (30 ≤ brightness ∧ brightness < 50) ∨
               (200 < brightness ∧ brightness ≤ 250) then 5
       else 0)
    let score3 : Nat := score2 +
      (if (30 : ℝ) < contrast then 10
       else if (20 : ℝ) < contrast then 5
       else 0)
    { quality_score := min score3 100, is_blurry := is_blurry,
      is_dark := is_dark, is_small := is_small, brightness := brightness,
      contrast := contrast, laplacian_variance := some laplacian_var,
      face_ratio := some face_ratio }

open Classical in
/-- The quality score exactly as §4.2 of the specification words it, for
comparison with the score computed by `detect_face_quality`: "Score starts
at 0; +30 if not blurry, +30 if not dark, +20 if not small, +10 if
brightness in [50,200] else +5 if in [30,50)∪(200,250], +10 if contrast
> 30 else +5 if > 20. Capped at 100." -/
noncomputable def specQualityScore (is_blurry is_dark is_small : Bool)
    (brightness : ℚ) (contrast : ℝ) : Nat :=
  min
    ((if is_blurry then 0 else 30) + (if is_dark then 0 else 30) +
      (if is_small then 0 else 20) +
      (if brightness ∈ Set.Icc (50 : ℚ) 200 then 10
       else if brightness ∈ Set.Ico (30 : ℚ) 50 ∪ Set.Ioc (200 : ℚ) 250 then 5
       else 0) +
      (if (30 : ℝ) < contrast then 10
       else if (20 : ℝ) < contrast then 5
       else 0))
    100

/-- An administrative operation on the embedding store, for stating
properties of arbitrary sequences of `add` / `set_primary` calls. -/
inductive StoreOp where
  | add (employee_code : String) (embedding : List ℚ)
      (variant_type embedding_type : String)
      (description photo_path : Option String) (quality_score : Option ℚ)
      (set_as_primary : Bool) (now : Nat) (commitOk : Bool)
  | setPrimary (eid : Nat) (commitOk : Bool)

/-- The store reached after one operation (the structured result is
discarded). -/
def applyOp (s : Store) : StoreOp → Store
  | .add employee_code embedding variant_type embedding_type description
      photo_path quality_score set_as_primary now commitOk =>
    (add_face_embedding s employee_code embedding variant_type embedding_type
      description photo_path quality_score set_as_primary now commitOk).1
  | .setPrimary eid commitOk => (set_primary_embedding s eid commitOk).1

/-- The store reached after a sequence of operations. -/
def runOps (s : Store) (ops : List StoreOp) : Store := ops.foldl applyOp s

/-- Two rows are compatible with primary uniqueness when they do not
witness two active primary embeddings of the same identity. -/
def primaryCompat (r1 r2 : FaceEmbeddingRec) : Prop :=
  r1.employee_code = r2.employee_code →
  ¬(r1.is_active = true ∧ r1.is_primary = true ∧
    r2.is_active = true ∧ r2.is_primary = true)

instance : DecidableRel primaryCompat := fun r1 r2 => by
  unfold primaryCompat; infer_instance

/-- The primary-uniqueness invariant: no identity has two active rows with
the primary flag set. -/
def primaryUnique (s : Store) : Prop :=
  s.records.Pairwise primaryCompat

/-- Database well-formedness: `id` is an autoincrement primary key, so all
stored ids are below the allocation counter and pairwise distinct. -/
def StoreWF (s : Store) : Prop :=
  (∀ r ∈ s.records, r.id < s.nextId) ∧ (s.records.map (·.id)).Nodup

instance (s : Store) : Decidable (primaryUnique s) := by
  unfold primaryUnique; infer_instance

instance (s : Store) : Decidable (StoreWF s) := by
  unfold StoreWF; infer_instance

/-- Test fixture: a stored row with the fields the claims care about
(variant and the optional metadata fixed to defaults). -/
def mkRec (id : Nat) (employee_code embedding_type : String)
    (embedding : List ℚ) (is_primary is_active : Bool) (created_at : Nat) :
    FaceEmbeddingRec :=
  { id := id
    employee_code := employee_code
    variant_type := "default"
    embedding_type := embedding_type
    description := none
    photo_path := none
    quality_score := none
    is_primary := is_primary
    is_active := is_active
    created_at := created_at
    embedding := embedding }

/-- Test fixture: a store value. -/
def mkStore (employees : List String) (records : List FaceEmbeddingRec)
    (nextId : Nat) : Store :=
  { employees := employees, records := records, nextId := nextId }

/-- Test fixture for the C1 witness: one employee with one stored
1-dimensional embedding equal to the query. -/
def c1Store : Store := mkStore ["E1"] [mkRec 0 "E1" "standard" [0] true true 0] 1

/-- Test fixture for C3: one active 2-dimensional embedding. -/
def c3Store : Store := mkStore ["E1"] [mkRec 0 "E1" "standard" [0, 0] true true 0] 1

/-- Test fixture for C4: two active embeddings of two different embedding
types, both 2-dimensional. -/
def c4Store : Store :=
  mkStore ["E1", "E2"]
    [mkRec 0 "E1" "standard" [0, 0] true true 0,
     mkRec 1 "E2" "deepface" [0, 0] true true 1] 2

/-- Test fixture for the C8 witness: a one-pixel mid-gray image. -/
def c8Img : List (List Pixel) := [[{ b := 100, g := 100, r := 100 }]]

theorem clearPrimaryFlag_id (c : String) (r : FaceEmbeddingRec) :
    (clearPrimaryFlag c r).id = r.id := by
  unfold clearPrimaryFlag; split <;> rfl

theorem clearPrimaryFlag_code (c : String) (r : FaceEmbeddingRec) :
    (clearPrimaryFlag c r).employee_code = r.employee_code := by
  unfold clearPrimaryFlag; split <;> rfl

theorem clearPrimaryFlag_active (c : String) (r : FaceEmbeddingRec) :
    (clearPrimaryFlag c r).is_active = r.is_active := by
  unfold clearPrimaryFlag; split <;> rfl

theorem clearPrimaryFlag_primary_true {c : String} {r : FaceEmbeddingRec}
    (h : (clearPrimaryFlag c r).is_primary = true) :
    r.employee_code ≠ c ∧ r.is_primary = true := by
  unfold clearPrimaryFlag at h
  split at h
  · exact absurd h (by simp)
  · rename_i hcond
    simp only [Bool.and_eq_true, beq_iff_eq, not_and] at hcond
    exact ⟨fun hc => by simp [hcond hc] at h, h⟩

theorem setPrimaryFlag_id (eid : Nat) (r : FaceEmbeddingRec) :
    (setPrimaryFlag eid r).id = r.id := by
  unfold setPrimaryFlag; split <;> rfl

theorem setPrimaryFlag_code (eid : Nat) (r : FaceEmbeddingRec) :
    (setPrimaryFlag eid r).employee_code = r.employee_code := by
  unfold setPrimaryFlag; split <;> rfl

theorem setPrimaryFlag_active (eid : Nat) (r : FaceEmbeddingRec) :
    (setPrimaryFlag eid r).is_active = r.is_active := by
  unfold setPrimaryFlag; split <;> rfl

theorem setPrimaryFlag_primary (eid : Nat) (r : FaceEmbeddingRec) :
    (setPrimaryFlag eid r).is_primary =
      if r.id = eid then true else r.is_primary := by
  unfold setPrimaryFlag
  by_cases h : r.id = eid <;> simp [h]

theorem map_id_clearPrimaries (recs : List FaceEmbeddingRec) (c : String) :
    (clearPrimaries recs c).map (·.id) = recs.map (·.id) := by
  unfold clearPrimaries
  rw [List.map_map]
  exact List.map_congr_left fun r _ => clearPrimaryFlag_id c r

theorem map_id_setPrimaryById (recs : List FaceEmbeddingRec) (eid : Nat) :
    (setPrimaryById recs eid).map (·.id) = recs.map (·.id) := by
  unfold setPrimaryById
  rw [List.map_map]
  exact List.map_congr_left fun r _ => setPrimaryFlag_id eid r

theorem has_any_embeddings_iff (s : Store) (c : String) :
    has_any_embeddings s c = true ↔
      ∃ r ∈ s.records, r.employee_code = c ∧ r.is_active = true := by
  unfold has_any_embeddings
  simp [List.any_eq_true, Bool.and_eq_true, beq_iff_eq]

theorem primaryUnique_clearPrimaries {recs : List FaceEmbeddingRec}
    (c : String) (h : recs.Pairwise primaryCompat) :
    (clearPrimaries recs c).Pairwise primaryCompat := by
  unfold clearPrimaries
  rw [List.pairwise_map]
  refine h.imp fun {a b} hab => ?_
  intro hcode hconf
  obtain ⟨hA1, hP1, hA2, hP2⟩ := hconf
  obtain ⟨-, hp1⟩ := clearPrimaryFlag_primary_true hP1
  obtain ⟨-, hp2⟩ := clearPrimaryFlag_primary_true hP2
  rw [clearPrimaryFlag_code, clearPrimaryFlag_code] at hcode
  rw [clearPrimaryFlag_active] at hA1 hA2
  exact hab hcode ⟨hA1, hp1, hA2, hp2⟩

theorem primaryCompat_clearPrimaries_new {recs : List FaceEmbeddingRec}
    {c : String} {new : FaceEmbeddingRec} (hnc : new.employee_code = c) :
    ∀ a ∈ clearPrimaries recs c, primaryCompat a new := by
  intro a ha
  unfold clearPrimaries at ha
  obtain ⟨x, -, rfl⟩ := List.mem_map.mp ha
  intro hcode hconf
  obtain ⟨-, hP1, -, -⟩ := hconf
  obtain ⟨hxc, -⟩ := clearPrimaryFlag_primary_true hP1
  rw [clearPrimaryFlag_code] at hcode
  exact hxc (hcode.trans hnc)

theorem primaryUnique_add (s : Store) (employee_code : String)
    (embedding : List ℚ) (variant_type embedding_type : String)
    (description photo_path : Option String) (quality_score : Option ℚ)
    (set_as_primary : Bool) (now : Nat) (commitOk : Bool)
    (hp : primaryUnique s) :
    primaryUnique (add_face_embedding s employee_code embedding variant_type
      embedding_type description photo_path quality_score set_as_primary now
      commitOk).1 := by
  unfold add_face_embedding
  by_cases hmem : employee_code ∈ s.employees
  · rw [if_pos hmem]
    cases commitOk
    · exact hp
    · show primaryUnique { s with records := _ ++ [_], nextId := _ }
      unfold primaryUnique
      rw [List.pairwise_append]
      cases set_as_primary
      · refine ⟨by simpa using hp, List.pairwise_singleton _ _, ?_⟩
        intro a ha b hb
        rw [List.mem_singleton] at hb
        subst hb
        simp only [Bool.false_eq_true, if_false] at ha
        intro hcode hconf
        obtain ⟨hA1, hP1, -, hP2⟩ := hconf
        simp only [Bool.false_or, Bool.not_eq_true'] at hP2
        rw [(has_any_embeddings_iff s employee_code).mpr
          ⟨a, ha, hcode, hA1⟩] at hP2
        cases hP2
      · refine ⟨by simpa using
          primaryUnique_clearPrimaries employee_code hp, List.pairwise_singleton _ _, ?_⟩
        intro a ha b hb
        rw [List.mem_singleton] at hb
        subst hb
        simp only [eq_self_iff_true, if_true] at ha
        exact primaryCompat_clearPrimaries_new rfl a ha
  · rw [if_neg hmem]
    exact hp

theorem storeWF_add (s : Store) (employee_code : String)
    (embedding : List ℚ) (variant_type embedding_type : String)
    (description photo_path : Option String) (quality_score : Option ℚ)
    (set_as_primary : Bool) (now : Nat) (commitOk : Bool)
    (hwf : StoreWF s) :
    StoreWF (add_face_embedding s employee_code embedding variant_type
      embedding_type description photo_path quality_score set_as_primary now
      commitOk).1 := by
  unfold add_face_embedding
  by_cases hmem : employee_code ∈ s.employees
  · rw [if_pos hmem]
    cases commitOk
    · exact hwf
    · have hids : ((if set_as_primary then clearPrimaries s.records employee_code
          else s.records).map (·.id)) = s.records.map (·.id) := by
        cases set_as_primary
        · simp
        · simp [map_id_clearPrimaries]
      show StoreWF { s with records := _ ++ [_], nextId := s.nextId + 1 }
      constructor
      · intro r hr
        rw [List.mem_append] at hr
        rcases hr with hr | hr
        · have : r.id ∈ s.records.map (·.id) := by
            rw [← hids]; exact List.mem_map_of_mem _ hr
          obtain ⟨x, hx, hxid⟩ := List.mem_map.mp this
          exact lt_trans (hxid ▸ hwf.1 x hx) (Nat.lt_succ_self _)
        · rw [List.mem_singleton] at hr
          subst hr
          exact Nat.lt_succ_self _
      · show (List.map (fun r : FaceEmbeddingRec => r.id) (_ ++ [_])).Nodup
        rw [List.map_append, hids]
        rw [List.nodup_append]
        refine ⟨hwf.2, List.nodup_singleton _, ?_⟩
        intro x hx hmem1
        rw [List.map_singleton, List.mem_singleton] at hmem1
        subst hmem1
        obtain ⟨y, hy, hyid⟩ := List.mem_map.mp hx
        exact absurd (hyid ▸ hwf.1 y hy) (lt_irrefl _)
  · rw [if_neg hmem]
    exact hwf

theorem clearPrimaryFlag_primary_of_code {c : String} {r : FaceEmbeddingRec}
    (h : r.employee_code = c) : (clearPrimaryFlag c r).is_primary = false := by
  unfold clearPrimaryFlag
  by_cases hp : r.is_primary <;> simp [h, hp]

theorem storeWF_setPrimary (s : Store) (eid : Nat) (commitOk : Bool)
    (hwf : StoreWF s) : StoreWF (set_primary_embedding s eid commitOk).1 := by
  unfold set_primary_embedding
  cases hfind : s.records.find? (fun r => r.id == eid) with
  | none => exact hwf
  | some rec =>
    cases commitOk
    · exact hwf
    · refine ⟨?_, ?_⟩
      · show ∀ r ∈ setPrimaryById (clearPrimaries s.records rec.employee_code) eid,
          r.id < s.nextId
        intro r hr
        have : r.id ∈ s.records.map (·.id) := by
          rw [← map_id_clearPrimaries s.records rec.employee_code,
            ← map_id_setPrimaryById (clearPrimaries s.records rec.employee_code) eid]
          exact List.mem_map_of_mem _ hr
        obtain ⟨x, hx, hxid⟩ := List.mem_map.mp this
        exact hxid ▸ hwf.1 x hx
      · show (List.map (fun r : FaceEmbeddingRec => r.id)
            (setPrimaryById (clearPrimaries s.records rec.employee_code) eid)).Nodup
        rw [map_id_setPrimaryById, map_id_clearPrimaries]
        exact hwf.2

theorem primaryUnique_setPrimary (s : Store) (eid : Nat) (commitOk : Bool)
    (hwf : StoreWF s) (hp : primaryUnique s) :
    primaryUnique (set_primary_embedding s eid commitOk).1 := by
  unfold set_primary_embedding
  cases hfind : s.records.find? (fun r => r.id == eid) with
  | none => exact hp
  | some rec =>
    cases commitOk
    · exact hp
    · have hrecmem : rec ∈ s.records := List.mem_of_find?_eq_some hfind
      have hrecid : rec.id = eid := by
        have h := List.find?_some hfind
        simpa using h
      have hinj : ∀ ⦃x⦄, x ∈ s.records → ∀ ⦃y⦄, y ∈ s.records →
          x.id = y.id → x = y :=
        List.inj_on_of_nodup_map hwf.2
      have hI : s.records.Pairwise fun a b => a.id ≠ b.id :=
        List.pairwise_map.mp hwf.2
      show (setPrimaryById (clearPrimaries s.records rec.employee_code) eid).Pairwise
        primaryCompat
      unfold setPrimaryById clearPrimaries
      rw [List.map_map, List.pairwise_map]
      refine List.Pairwise.imp_of_mem ?_ (hp.and hI)
      intro a b ha hb hab
      obtain ⟨hpc, hne⟩ := hab
      intro hcode hconf
      obtain ⟨hA1, hP1, hA2, hP2⟩ := hconf
      simp only [Function.comp_apply] at hcode hA1 hP1 hA2 hP2
      rw [setPrimaryFlag_code, clearPrimaryFlag_code, setPrimaryFlag_code,
        clearPrimaryFlag_code] at hcode
      rw [setPrimaryFlag_active, clearPrimaryFlag_active] at hA1
      rw [setPrimaryFlag_active, clearPrimaryFlag_active] at hA2
      rw [setPrimaryFlag_primary, clearPrimaryFlag_id] at hP1
      rw [setPrimaryFlag_primary, clearPrimaryFlag_id] at hP2
      by_cases h1 : a.id = eid <;> by_cases h2 : b.id = eid
      · exact hne (h1.trans h2.symm)
      · have ha_rec : a = rec := hinj ha hrecmem (h1.trans hrecid.symm)
        rw [if_neg h2] at hP2
        exact (clearPrimaryFlag_primary_true hP2).1 (by rw [← hcode, ha_rec])
      · have hb_rec : b = rec := hinj hb hrecmem (h2.trans hrecid.symm)
        rw [if_neg h1] at hP1
        exact (clearPrimaryFlag_primary_true hP1).1 (by rw [hcode, hb_rec])
      · rw [if_neg h1] at hP1
        rw [if_neg h2] at hP2
        exact hpc hcode ⟨hA1, (clearPrimaryFlag_primary_true hP1).2, hA2,
          (clearPrimaryFlag_primary_true hP2).2⟩

theorem inv_runOps (s : Store) (hwf : StoreWF s) (hp : primaryUnique s)
    (ops : List StoreOp) :
    StoreWF (runOps s ops) ∧ primaryUnique (runOps s ops) := by
  induction ops generalizing s with
  | nil => exact ⟨hwf, hp⟩
  | cons op ops ih =>
    have hstep : StoreWF (applyOp s op) ∧ primaryUnique (applyOp s op) := by
      cases op with
      | add employee_code embedding variant_type embedding_type description
          photo_path quality_score set_as_primary now commitOk =>
        exact ⟨storeWF_add s employee_code embedding variant_type
          embedding_type description photo_path quality_score set_as_primary
          now commitOk hwf,
          primaryUnique_add s employee_code embedding variant_type
          embedding_type description photo_path quality_score set_as_primary
          now commitOk hp⟩
      | setPrimary eid commitOk =>
        exact ⟨storeWF_setPrimary s eid commitOk hwf,
          primaryUnique_setPrimary s eid commitOk hwf hp⟩
    exact ih (applyOp s op) hstep.1 hstep.2

theorem mem_setPrimary_clear {l : List FaceEmbeddingRec} {c : String}
    {eid : Nat} {r : FaceEmbeddingRec}
    (hr : r ∈ setPrimaryById (clearPrimaries l c) eid) :
    ∃ y ∈ l, r = setPrimaryFlag eid (clearPrimaryFlag c y) := by
  unfold setPrimaryById clearPrimaries at hr
  rw [List.map_map] at hr
  obtain ⟨y, hy, hr⟩ := List.mem_map.mp hr
  exact ⟨y, hy, hr.symm⟩

/-- C2: for every identity, after any sequence of add and set_primary
operations, at most one active embedding record of that identity has
primary=true; a successful set_primary leaves the targeted record primary
and clears the primary flag on every other record of the same identity in
the same atomic unit of work. -/
theorem C2_primary_uniqueness (s : Store) (hwf : StoreWF s)
    (hp : primaryUnique s) :
    (∀ ops : List StoreOp, primaryUnique (runOps s ops)) ∧
    (∀ eid commitOk s2 res,
      set_primary_embedding s eid commitOk = (s2, res) →
      res.success = true →
      ∀ r0 ∈ s2.records, r0.id = eid →
        r0.is_primary = true ∧
        ∀ r1 ∈ s2.records, r1.employee_code = r0.employee_code →
          r1.id ≠ eid → r1.is_primary = false) := by
  constructor
  · intro ops
    exact (inv_runOps s hwf hp ops).2
  · intro eid commitOk s2 res heq hsucc r0 hr0 hid0
    unfold set_primary_embedding at heq
    cases hfind : s.records.find? (fun r => r.id == eid) with
    | none =>
      rw [hfind] at heq
      cases heq
      cases hsucc
    | some rec =>
      rw [hfind] at heq
      cases commitOk
      · cases heq
        cases hsucc
      · cases heq
        have hrecmem : rec ∈ s.records := List.mem_of_find?_eq_some hfind
        have hrecid : rec.id = eid := by
          have h := List.find?_some hfind
          simpa using h
        have hinj : ∀ ⦃x⦄, x ∈ s.records → ∀ ⦃y⦄, y ∈ s.records →
            x.id = y.id → x = y :=
          List.inj_on_of_nodup_map hwf.2
        obtain ⟨y0, hy0, hr0eq⟩ := mem_setPrimary_clear hr0
        have hy0id : y0.id = eid := by
          rw [hr0eq, setPrimaryFlag_id, clearPrimaryFlag_id] at hid0
          exact hid0
        have hy0rec : y0 = rec := hinj hy0 hrecmem (hy0id.trans hrecid.symm)
        constructor
        · rw [hr0eq, setPrimaryFlag_primary, clearPrimaryFlag_id, if_pos hy0id]
        · intro r1 hr1 hcode hid1
          obtain ⟨y1, hy1, hr1eq⟩ := mem_setPrimary_clear hr1
          have hy1id : y1.id ≠ eid := by
            rw [hr1eq, setPrimaryFlag_id, clearPrimaryFlag_id] at hid1
            exact hid1
          have hy1code : y1.employee_code = rec.employee_code := by
            rw [hr1eq, setPrimaryFlag_code, clearPrimaryFlag_code, hr0eq,
              setPrimaryFlag_code, clearPrimaryFlag_code, hy0rec] at hcode
            exact hcode
          rw [hr1eq, setPrimaryFlag_primary, clearPrimaryFlag_id, if_neg hy1id]
          exact clearPrimaryFlag_primary_of_code hy1code

/-- Witness for C2 at a concrete store and operation sequence: an empty
store for employee E1, one enrollment and one set_primary call. -/
theorem C2_primary_uniqueness_witness :
    StoreWF { employees := ["E1"], records := [], nextId := 0 } ∧
    primaryUnique { employees := ["E1"], records := [], nextId := 0 } ∧
    primaryUnique (runOps { employees := ["E1"], records := [], nextId := 0 }
      [.add "E1" [1] "default" "standard" none none none false 0 true,
       .add "E1" [2] "with_glasses" "standard" none none none true 1 true,
       .setPrimary 0 true]) :=
  ⟨by decide, by decide,
    (C2_primary_uniqueness { employees := ["E1"], records := [], nextId := 0 }
      (by decide) (by decide)).1
      [.add "E1" [1] "default" "standard" none none none false 0 true,
       .add "E1" [2] "with_glasses" "standard" none none none true 1 true,
       .setPrimary 0 true]⟩

/-- C6: adding an embedding for an identity that has zero active
embeddings, without requesting set_primary, produces a record with
primary=true (auto-primary on first enrollment); adding when the identity
already has at least one active embedding and set_primary is not requested
produces a record with primary=false. -/
theorem C6_auto_primary_on_first_enrollment (s : Store)
    (employee_code : String) (embedding : List ℚ)
    (variant_type embedding_type : String)
    (description photo_path : Option String) (quality_score : Option ℚ)
    (now : Nat) (hmem : employee_code ∈ s.employees) :
    ((∀ r ∈ s.records, r.employee_code = employee_code → r.is_active = false) →
      (add_face_embedding s employee_code embedding variant_type
        embedding_type description photo_path quality_score false now
        true).2.is_primary = some true ∧
      ∃ rec, (add_face_embedding s employee_code embedding variant_type
          embedding_type description photo_path quality_score false now
          true).1.records.getLast? = some rec ∧
        rec.is_primary = true ∧ rec.employee_code = employee_code) ∧
    ((∃ r ∈ s.records, r.employee_code = employee_code ∧ r.is_active = true) →
      (add_face_embedding s employee_code embedding variant_type
        embedding_type description photo_path quality_score false now
        true).2.is_primary = some false ∧
      ∃ rec, (add_face_embedding s employee_code embedding variant_type
          embedding_type description photo_path quality_score false now
          true).1.records.getLast? = some rec ∧
        rec.is_primary = false ∧ rec.employee_code = employee_code) := by
  unfold add_face_embedding
  rw [if_pos hmem]
  constructor
  · intro h
    have hha : has_any_embeddings s employee_code = false := by
      rw [← Bool.not_eq_true, has_any_embeddings_iff]
      rintro ⟨r, hr, hc, hA⟩
      rw [h r hr hc] at hA
      cases hA
    constructor
    · simp [hha]
    · exact ⟨_, List.getLast?_concat _, by simp [hha], rfl⟩
  · intro h
    have hha : has_any_embeddings s employee_code = true := by
      rw [has_any_embeddings_iff]
      obtain ⟨r, hr, hc, hA⟩ := h
      exact ⟨r, hr, hc, hA⟩
    constructor
    · simp [hha]
    · exact ⟨_, List.getLast?_concat _, by simp [hha], rfl⟩

/-- Witness for C6 at concrete stores: an employee with no records at all,
then the same employee with one active record. -/
theorem C6_auto_primary_on_first_enrollment_witness :
    ("E1" ∈ (mkStore ["E1"] [] 0).employees ∧
      (add_face_embedding (mkStore ["E1"] [] 0)
        "E1" [1] "default" "standard" none none none false 5
        true).2.is_primary = some true) ∧
    ("E1" ∈ (mkStore ["E1"] [mkRec 0 "E1" "standard" [1] true true 0] 1).employees ∧
      (add_face_embedding (mkStore ["E1"] [mkRec 0 "E1" "standard" [1] true true 0] 1)
        "E1" [2] "with_glasses" "standard" none none none false 5
        true).2.is_primary = some false) :=
  ⟨⟨by decide,
    ((C6_auto_primary_on_first_enrollment (mkStore ["E1"] [] 0)
      "E1" [1] "default" "standard" none none none 5 (by decide)).1
      (by decide)).1⟩,
   ⟨by decide,
    ((C6_auto_primary_on_first_enrollment
      (mkStore ["E1"] [mkRec 0 "E1" "standard" [1] true true 0] 1)
      "E1" [2] "with_glasses" "standard" none none none 5 (by decide)).2
      ⟨mkRec 0 "E1" "standard" [1] true true 0, by decide, by decide, by decide⟩).1⟩⟩

/-- C9: if a mutating store operation fails during persistence, the
operation rolls back every partial state change (the resulting store is the
original one, including any primary-flag reassignment already applied in
the same unit of work) and returns a structured failure result instead of
raising an exception. -/
theorem C9_rollback_on_persistence_failure (s : Store)
    (employee_code : String) (embedding : List ℚ)
    (variant_type embedding_type : String)
    (description photo_path : Option String) (quality_score : Option ℚ)
    (set_as_primary : Bool) (now : Nat) (eid : Nat) :
    ((add_face_embedding s employee_code embedding variant_type
        embedding_type description photo_path quality_score set_as_primary
        now false).1 = s ∧
      (add_face_embedding s employee_code embedding variant_type
        embedding_type description photo_path quality_score set_as_primary
        now false).2.success = false) ∧
    ((set_primary_embedding s eid false).1 = s ∧
      (set_primary_embedding s eid false).2.success = false) ∧
    ((delete_face_embedding s eid false).1 = s ∧
      (delete_face_embedding s eid false).2.success = false) := by
  refine ⟨⟨?_, ?_⟩, ⟨?_, ?_⟩, ⟨?_, ?_⟩⟩
  · unfold add_face_embedding
    by_cases hmem : employee_code ∈ s.employees
    · rw [if_pos hmem]
      exact rfl
    · rw [if_neg hmem]
  · unfold add_face_embedding
    by_cases hmem : employee_code ∈ s.employees
    · rw [if_pos hmem]
      exact rfl
    · rw [if_neg hmem]
  · unfold set_primary_embedding
    cases s.records.find? (fun r => r.id == eid) <;> rfl
  · unfold set_primary_embedding
    cases s.records.find? (fun r => r.id == eid) <;> rfl
  · unfold delete_face_embedding
    cases s.records.find? (fun r => r.id == eid) <;> rfl
  · unfold delete_face_embedding
    cases s.records.find? (fun r => r.id == eid) <;> rfl

theorem embLe_trans (a b c : FaceEmbeddingRec)
    (h1 : embLe a b) (h2 : embLe b c) : embLe a c := by
  simp only [embLe, Bool.or_eq_true, Bool.and_eq_true, decide_eq_true_eq]
    at h1 h2 ⊢
  omega

theorem embLe_total (a b : FaceEmbeddingRec) : embLe a b || embLe b a := by
  simp only [embLe, Bool.or_eq_true, Bool.and_eq_true, decide_eq_true_eq]
  omega

theorem embLe_spec {a b : FaceEmbeddingRec} (h : embLe a b = true) :
    (b.is_primary = true → a.is_primary = true) ∧
    (a.is_primary = b.is_primary → b.created_at ≤ a.created_at) := by
  simp only [embLe, Bool.or_eq_true, Bool.and_eq_true, decide_eq_true_eq] at h
  cases hpa : a.is_primary <;> cases hpb : b.is_primary <;>
    simp [hpa, hpb] at h ⊢ <;> omega

/-- C10: listing an identity's active embeddings returns only that
identity's active records, contains all of them, and is ordered
primary-first and then most-recent-first by creation time. -/
theorem C10_list_active_order (s : Store) (employee_code : String) :
    (∀ r ∈ get_employee_embeddings s employee_code true,
      r.employee_code = employee_code ∧ r.is_active = true) ∧
    (∀ r ∈ s.records, r.employee_code = employee_code → r.is_active = true →
      r ∈ get_employee_embeddings s employee_code true) ∧
    (get_employee_embeddings s employee_code true).Pairwise
      (fun a b => (b.is_primary = true → a.is_primary = true) ∧
        (a.is_primary = b.is_primary → b.created_at ≤ a.created_at)) := by
  have hperm : List.Perm (get_employee_embeddings s employee_code true)
      (((s.records.filter fun r => r.employee_code == employee_code).filter
        fun r => r.is_active)) := by
    show ((((s.records.filter fun r => r.employee_code == employee_code).filter
      fun r => r.is_active)).mergeSort embLe).Perm _
    exact List.mergeSort_perm _ _
  refine ⟨?_, ?_, ?_⟩
  · intro r hr
    have hr2 := hperm.mem_iff.mp hr
    rw [List.mem_filter] at hr2
    obtain ⟨hr3, hact⟩ := hr2
    rw [List.mem_filter] at hr3
    exact ⟨by simpa using hr3.2, hact⟩
  · intro r hr hcode hact
    refine hperm.mem_iff.mpr ?_
    rw [List.mem_filter, List.mem_filter]
    exact ⟨⟨hr, by simpa using hcode⟩, hact⟩
  · have hsorted :
        (get_employee_embeddings s employee_code true).Pairwise
          (fun a b => embLe a b = true) := by
      show ((((s.records.filter fun r => r.employee_code == employee_code).filter
        fun r => r.is_active)).mergeSort embLe).Pairwise _
      exact List.sorted_mergeSort embLe_trans embLe_total _
    exact hsorted.imp fun h => embLe_spec h

theorem foldl_min_mem (x : ℝ) (xs : List ℝ) : xs.foldl min x ∈ x :: xs := by
  induction xs generalizing x with
  | nil => simp
  | cons y ys ih =>
    have h := ih (min x y)
    rcases List.mem_cons.mp h with h | h
    · rcases min_choice x y with hm | hm
      · rw [List.foldl_cons, h, hm]
        exact List.mem_cons_self _ _
      · rw [List.foldl_cons, h, hm]
        exact List.mem_cons_of_mem _ (List.mem_cons_self _ _)
    · rw [List.foldl_cons]
      exact List.mem_cons_of_mem _ (List.mem_cons_of_mem _ h)

theorem foldl_min_le (x : ℝ) (xs : List ℝ) :
    ∀ a ∈ x :: xs, xs.foldl min x ≤ a := by
  induction xs generalizing x with
  | nil =>
    intro a ha
    rw [List.mem_singleton] at ha
    rw [ha]
    exact le_rfl
  | cons y ys ih =>
    intro a ha
    rcases List.mem_cons.mp ha with rfl | ha
    · exact le_trans (ih (min a y) (min a y) (List.mem_cons_self _ _))
        (min_le_left _ _)
    · rcases List.mem_cons.mp ha with rfl | ha
      · exact le_trans (ih (min x a) (min x a) (List.mem_cons_self _ _))
          (min_le_right _ _)
      · exact ih (min x y) a (List.mem_cons_of_mem _ ha)

theorem listMin_mem {l : List ℝ} (h : l ≠ []) : listMin l ∈ l := by
  cases l with
  | nil => cases h rfl
  | cons x xs => exact foldl_min_mem x xs

theorem listMin_le {l : List ℝ} {a : ℝ} (ha : a ∈ l) : listMin l ≤ a := by
  cases l with
  | nil => cases ha
  | cons x xs => exact foldl_min_le x xs a ha

theorem recognize_eq_noFaces (tolerance : ℝ) (s : Store) (q : List ℚ)
    (hg : (get_all_face_embeddings_multi s none none).1 = []) :
    recognize_employee_multi tolerance s q =
      { success := false, message := RecogMsg.noRegisteredFaces,
        employee_code := none, confidence := 0, distance := none } := by
  have hgE : (get_all_face_embeddings_multi s none none).1.isEmpty = true := by
    rw [List.isEmpty_iff]
    exact hg
  unfold recognize_employee_multi
  simp only [hgE, if_true]

theorem recognize_eq_couldNot (tolerance : ℝ) (s : Store) (q : List ℚ)
    (hg : (get_all_face_embeddings_multi s none none).1 ≠ [])
    (hd : find_face_distance q (get_all_face_embeddings_multi s none none).1 = []) :
    recognize_employee_multi tolerance s q =
      { success := false, message := RecogMsg.couldNotCalculate,
        employee_code := none, confidence := 0, distance := none } := by
  have hgE : (get_all_face_embeddings_multi s none none).1.isEmpty = false := by
    rw [List.isEmpty_eq_false]
    exact hg
  have hdE : (find_face_distance q
      (get_all_face_embeddings_multi s none none).1).isEmpty = true := by
    rw [List.isEmpty_iff]
    exact hd
  unfold recognize_employee_multi
  simp only [hgE, Bool.false_eq_true, if_false, hdE, if_true]

open Classical in
theorem recognize_eq_gate (tolerance : ℝ) (s : Store) (q : List ℚ)
    (hg : (get_all_face_embeddings_multi s none none).1 ≠ [])
    (hd : find_face_distance q (get_all_face_embeddings_multi s none none).1 ≠ []) :
    recognize_employee_multi tolerance s q =
      (if listMin (find_face_distance q
          (get_all_face_embeddings_multi s none none).1) < tolerance then
        if (0.6 : ℝ) ≤ 1 - listMin (find_face_distance q
            (get_all_face_embeddings_multi s none none).1) then
          { success := true, message := RecogMsg.recognized,
            employee_code := some ((get_all_face_embeddings_multi s none none).2.getD
              ((find_face_distance q
                (get_all_face_embeddings_multi s none none).1).findIdx
                fun d => decide (d = listMin (find_face_distance q
                  (get_all_face_embeddings_multi s none none).1))) ""),
            confidence := 1 - listMin (find_face_distance q
              (get_all_face_embeddings_multi s none none).1),
            distance := some (listMin (find_face_distance q
              (get_all_face_embeddings_multi s none none).1)) }
        else
          { success := false, message := RecogMsg.lowConfidence,
            employee_code := none,
            confidence := 1 - listMin (find_face_distance q
              (get_all_face_embeddings_multi s none none).1),
            distance := some (listMin (find_face_distance q
              (get_all_face_embeddings_multi s none none).1)) }
      else
        { success := false, message := RecogMsg.noMatch, employee_code := none,
          confidence := 0,
          distance := some (listMin (find_face_distance q
            (get_all_face_embeddings_multi s none none).1)) }) := by
  have hgE : (get_all_face_embeddings_multi s none none).1.isEmpty = false := by
    rw [List.isEmpty_eq_false]
    exact hg
  have hdE : (find_face_distance q
      (get_all_face_embeddings_multi s none none).1).isEmpty = false := by
    rw [List.isEmpty_eq_false]
    exact hd
  unfold recognize_employee_multi
  simp only [hgE, hdE, Bool.false_eq_true, if_false]

/-- C7: identifying any query vector against an empty gallery (no active
registered embeddings) returns matched=false with the no-registered-faces
message and confidence 0.0, as a normal structured result with no exception
raised. -/
theorem C7_empty_gallery (tolerance : ℝ) (s : Store) (q : List ℚ)
    (h : ∀ r ∈ s.records, r.is_active = false) :
    recognize_employee_multi tolerance s q =
      { success := false, message := RecogMsg.noRegisteredFaces,
        employee_code := none, confidence := 0, distance := none } := by
  apply recognize_eq_noFaces
  unfold get_all_face_embeddings_multi
  have hnil : s.records.filter
      (fun r => r.is_active && typeFilterOk none r) = [] := by
    rw [List.filter_eq_nil_iff]
    intro r hr
    simp [typeFilterOk, h r hr]
  simp [hnil]

/-- Witness for C7 on a fresh store with no records at all. -/
theorem C7_empty_gallery_witness :
    (∀ r ∈ (mkStore [] [] 0).records, r.is_active = false) ∧
    recognize_employee_multi (0.4 : ℝ) (mkStore [] [] 0) [0] =
      { success := false, message := RecogMsg.noRegisteredFaces,
        employee_code := none, confidence := 0, distance := none } :=
  ⟨by decide, C7_empty_gallery (0.4 : ℝ) (mkStore [] [] 0) [0] (by decide)⟩

/-- C1: for every non-empty gallery (with a computable distance list),
identification returns matched=true if and only if the minimum distance is
strictly below the configured tolerance and the derived confidence
1 - min_distance is at least 0.6; when the distance passes but the
confidence fails, the result is the distinct low-confidence outcome
carrying the computed confidence and distance, not the plain no-match
outcome. -/
theorem C1_two_stage_acceptance (tolerance : ℝ) (s : Store) (q : List ℚ)
    (hg : (get_all_face_embeddings_multi s none none).1 ≠ [])
    (hd : find_face_distance q (get_all_face_embeddings_multi s none none).1 ≠ []) :
    ((recognize_employee_multi tolerance s q).success = true ↔
      listMin (find_face_distance q
        (get_all_face_embeddings_multi s none none).1) < tolerance ∧
      (0.6 : ℝ) ≤ 1 - listMin (find_face_distance q
        (get_all_face_embeddings_multi s none none).1)) ∧
    (listMin (find_face_distance q
        (get_all_face_embeddings_multi s none none).1) < tolerance →
      1 - listMin (find_face_distance q
        (get_all_face_embeddings_multi s none none).1) < 0.6 →
      recognize_employee_multi tolerance s q =
        { success := false, message := RecogMsg.lowConfidence,
          employee_code := none,
          confidence := 1 - listMin (find_face_distance q
            (get_all_face_embeddings_multi s none none).1),
          distance := some (listMin (find_face_distance q
            (get_all_face_embeddings_multi s none none).1)) } ∧
      (recognize_employee_multi tolerance s q).message ≠ RecogMsg.noMatch) := by
  rw [recognize_eq_gate tolerance s q hg hd]
  by_cases hm : listMin (find_face_distance q
      (get_all_face_embeddings_multi s none none).1) < tolerance
  · rw [if_pos hm]
    by_cases hc : (0.6 : ℝ) ≤ 1 - listMin (find_face_distance q
        (get_all_face_embeddings_multi s none none).1)
    · rw [if_pos hc]
      constructor
      · simpa using ⟨hm, hc⟩
      · intro _ hlt
        exact absurd hc (by linarith)
    · rw [if_neg hc]
      constructor
      · simp only [Bool.false_eq_true, false_iff, not_and]
        intro _
        exact hc
      · intro _ _
        exact ⟨rfl, by simp⟩
  · rw [if_neg hm]
    constructor
    · simp only [Bool.false_eq_true, false_iff, not_and]
      intro h
      exact absurd h hm
    · intro h
      exact absurd h hm

/-- C5: with the FaceDetector default tolerance of 0.4, the low-confidence
rejection branch of recognize_employee_multi is unreachable (distance below
0.4 forces confidence above 0.6), and the branch becomes reachable once the
tolerance is configured above 0.4, witnessed at tolerance 0.5. -/
theorem C5_low_confidence_unreachable_at_default_tolerance :
    (∀ (s : Store) (q : List ℚ),
      (recognize_employee_multi (0.4 : ℝ) s q).message ≠
        RecogMsg.lowConfidence) ∧
    (recognize_employee_multi (0.5 : ℝ)
      (mkStore ["E1"] [mkRec 0 "E1" "standard" [0] true true 0] 1)
      [9/20]).message = RecogMsg.lowConfidence := by
  constructor
  · intro s q
    by_cases hg : (get_all_face_embeddings_multi s none none).1 = []
    · rw [recognize_eq_noFaces (0.4 : ℝ) s q hg]
      simp
    · by_cases hd : find_face_distance q
          (get_all_face_embeddings_multi s none none).1 = []
      · rw [recognize_eq_couldNot (0.4 : ℝ) s q hg hd]
        simp
      · rw [recognize_eq_gate (0.4 : ℝ) s q hg hd]
        by_cases hm : listMin (find_face_distance q
            (get_all_face_embeddings_multi s none none).1) < (0.4 : ℝ)
        · rw [if_pos hm]
          rw [if_pos (by linarith)]
          simp
        · rw [if_neg hm]
          simp
  · have hgal : (get_all_face_embeddings_multi
        (mkStore ["E1"] [mkRec 0 "E1" "standard" [0] true true 0] 1)
        none none) = ([[0]], ["E1"]) := by decide
    have hds0 : find_face_distance [9/20] [[(0 : ℚ)]] =
        [Real.sqrt ((sqDiffSum [0] [9/20] 1 : ℚ) : ℝ)] := rfl
    have hsum : sqDiffSum [0] [9/20] 1 = 81 / 400 := by
      norm_num [sqDiffSum, bget]
    rw [hsum] at hds0
    have hds : find_face_distance [9/20] [[(0 : ℚ)]] = [(9 / 20 : ℝ)] := by
      rw [hds0]
      have hcast : (((81 : ℚ) / 400 : ℚ) : ℝ) = (9 / 20 : ℝ) ^ 2 := by
        norm_num
      rw [hcast, Real.sqrt_sq (by norm_num)]
    rw [recognize_eq_gate (0.5 : ℝ)
      (mkStore ["E1"] [mkRec 0 "E1" "standard" [0] true true 0] 1) [9/20]
      (by rw [hgal]; exact List.cons_ne_nil _ _)
      (by rw [hgal]; rw [hds]; exact List.cons_ne_nil _ _)]
    rw [hgal]
    rw [hds]
    have hmin : listMin [(9 / 20 : ℝ)] = 9 / 20 := rfl
    rw [hmin]
    rw [if_pos (by norm_num)]
    rw [if_neg (by norm_num)]

/-- Witness for C1 on a concrete store and query at distance zero. -/
theorem C1_two_stage_acceptance_witness :
    ((recognize_employee_multi (0.4 : ℝ) c1Store [0]).success = true ↔
      listMin (find_face_distance [0]
        (get_all_face_embeddings_multi c1Store none none).1) < (0.4 : ℝ) ∧
      (0.6 : ℝ) ≤ 1 - listMin (find_face_distance [0]
        (get_all_face_embeddings_multi c1Store none none).1)) ∧
    (listMin (find_face_distance [0]
        (get_all_face_embeddings_multi c1Store none none).1) < (0.4 : ℝ) →
      1 - listMin (find_face_distance [0]
        (get_all_face_embeddings_multi c1Store none none).1) < 0.6 →
      recognize_employee_multi (0.4 : ℝ) c1Store [0] =
        { success := false, message := RecogMsg.lowConfidence,
          employee_code := none,
          confidence := 1 - listMin (find_face_distance [0]
            (get_all_face_embeddings_multi c1Store none none).1),
          distance := some (listMin (find_face_distance [0]
            (get_all_face_embeddings_multi c1Store none none).1)) } ∧
      (recognize_employee_multi (0.4 : ℝ) c1Store [0]).message ≠
        RecogMsg.noMatch) :=
  C1_two_stage_acceptance (0.4 : ℝ) c1Store [0] (by decide)
    (List.cons_ne_nil _ _)

theorem find_face_distance_eq_nil {known : List (List ℚ)} {q : List ℚ}
    {L : Nat} (hall : ∀ v ∈ known, v.length = L)
    (hqL : q.length ≠ L) (hq1 : q.length ≠ 1) (hL1 : L ≠ 1) :
    find_face_distance q known = [] := by
  cases known with
  | nil => rfl
  | cons k0 ks =>
    have hL0 : k0.length = L := hall k0 (List.mem_cons_self _ _)
    have hAll : (k0 :: ks).all (fun k => k.length == k0.length) = true := by
      rw [List.all_eq_true]
      intro k hk
      rw [beq_iff_eq, hall k hk, hL0]
    have hcond : ¬(k0.length = q.length ∨ k0.length = 1 ∨ q.length = 1) := by
      rintro (h | h | h)
      · exact hqL (h ▸ hL0 ▸ rfl)
      · exact hL1 (hL0 ▸ h)
      · exact hq1 h
    unfold find_face_distance faceDistanceNp
    simp only [List.isEmpty_cons, Bool.false_eq_true, if_false]
    simp only [hAll, if_true, if_neg hcond]

/-- Counterexample to C3 as stated: a query of length 1 against a gallery
of 2-dimensional embeddings is not rejected before distance computation;
numpy broadcasting compares it against the gallery and identification even
returns matched=true. -/
theorem C3_counterexample :
    ([(0 : ℚ)].length ≠ 2) ∧
    (∀ v ∈ (get_all_face_embeddings_multi c3Store none none).1, v.length = 2) ∧
    (recognize_employee_multi (0.4 : ℝ) c3Store [0]).success = true ∧
    (recognize_employee_multi (0.4 : ℝ) c3Store [0]).employee_code =
      some "E1" := by
  refine ⟨by decide, by decide, ?_⟩
  have hgal : get_all_face_embeddings_multi c3Store none none =
      ([[0, 0]], ["E1"]) := by decide
  have hds0 : find_face_distance [0] [[(0 : ℚ), 0]] =
      [Real.sqrt ((sqDiffSum [0, 0] [0] 2 : ℚ) : ℝ)] := rfl
  have hsum : sqDiffSum [0, 0] [0] 2 = 0 := by
    norm_num [sqDiffSum, bget, List.range_succ]
  have hds : find_face_distance [0] [[(0 : ℚ), 0]] = [(0 : ℝ)] := by
    rw [hds0, hsum]
    norm_num
  have hrec := recognize_eq_gate (0.4 : ℝ) c3Store [0]
    (by rw [hgal]; exact List.cons_ne_nil _ _)
    (by rw [hgal]; rw [hds]; exact List.cons_ne_nil _ _)
  rw [hgal] at hrec
  rw [hds] at hrec
  have hmin : listMin [(0 : ℝ)] = 0 := rfl
  rw [hmin] at hrec
  rw [if_pos (by norm_num)] at hrec
  rw [if_pos (by norm_num)] at hrec
  rw [hrec]
  constructor
  · rfl
  · show some (["E1"].getD (List.findIdx (fun d => decide (d = (0 : ℝ))) [0]) "") =
      some "E1"
    simp [List.findIdx_cons]

/-- C3 amended: a query vector whose length differs from the gallery
embeddings' common dimensionality is never padded or truncated, and —
provided neither length is 1, so that numpy broadcasting cannot apply —
the distance computation fails and identification returns the structured
calculation-failure result (success=false, no identity, confidence 0)
rather than a match; there is no pre-computation InvalidInput check. -/
theorem C3_dimension_mismatch_fails (tolerance : ℝ) (s : Store) (q : List ℚ)
    (L : Nat)
    (hg : (get_all_face_embeddings_multi s none none).1 ≠ [])
    (hall : ∀ v ∈ (get_all_face_embeddings_multi s none none).1, v.length = L)
    (hqL : q.length ≠ L) (hq1 : q.length ≠ 1) (hL1 : L ≠ 1) :
    recognize_employee_multi tolerance s q =
      { success := false, message := RecogMsg.couldNotCalculate,
        employee_code := none, confidence := 0, distance := none } :=
  recognize_eq_couldNot tolerance s q hg
    (find_face_distance_eq_nil hall hqL hq1 hL1)

/-- Witness for the amended C3: a 3-dimensional query against the
2-dimensional gallery of `c3Store`. -/
theorem C3_dimension_mismatch_fails_witness :
    ((get_all_face_embeddings_multi c3Store none none).1 ≠ [] ∧
      (∀ v ∈ (get_all_face_embeddings_multi c3Store none none).1,
        v.length = 2)) ∧
    recognize_employee_multi (0.4 : ℝ) c3Store [0, 0, 0] =
      { success := false, message := RecogMsg.couldNotCalculate,
        employee_code := none, confidence := 0, distance := none } :=
  ⟨⟨by decide, by decide⟩,
    C3_dimension_mismatch_fails (0.4 : ℝ) c3Store [0, 0, 0] 2 (by decide)
      (by decide) (by decide) (by decide) (by decide)⟩

/-- Counterexample to C4 as stated: the gallery recognize_employee_multi
matches against (requested with no type filter) simultaneously contains
embeddings of two different embedding types, and the recognition query is
matched against it successfully — so the gallery is not restricted to any
single query type. -/
theorem C4_counterexample :
    (∃ r1 ∈ c4Store.records, ∃ r2 ∈ c4Store.records,
      r1.embedding_type = "standard" ∧ r2.embedding_type = "deepface" ∧
      r1.embedding ∈ (get_all_face_embeddings_multi c4Store none none).1 ∧
      r2.embedding ∈ (get_all_face_embeddings_multi c4Store none none).1) ∧
    (recognize_employee_multi (0.4 : ℝ) c4Store [0, 0]).success = true := by
  refine ⟨by decide, ?_⟩
  have hgal : get_all_face_embeddings_multi c4Store none none =
      ([[0, 0], [0, 0]], ["E1", "E2"]) := by decide
  have hds0 : find_face_distance [0, 0] [[(0 : ℚ), 0], [0, 0]] =
      [Real.sqrt ((sqDiffSum [0, 0] [0, 0] 2 : ℚ) : ℝ),
       Real.sqrt ((sqDiffSum [0, 0] [0, 0] 2 : ℚ) : ℝ)] := rfl
  have hsum : sqDiffSum [0, 0] [0, 0] 2 = 0 := by
    norm_num [sqDiffSum, bget, List.range_succ]
  have hds : find_face_distance [0, 0] [[(0 : ℚ), 0], [0, 0]] =
      [(0 : ℝ), 0] := by
    rw [hds0, hsum]
    norm_num
  have hrec := recognize_eq_gate (0.4 : ℝ) c4Store [0, 0]
    (by rw [hgal]; exact List.cons_ne_nil _ _)
    (by rw [hgal]; rw [hds]; exact List.cons_ne_nil _ _)
  rw [hgal] at hrec
  rw [hds] at hrec
  have hmin : listMin [(0 : ℝ), 0] = 0 := by
    show List.foldl min (0 : ℝ) [0] = 0
    simp
  rw [hmin] at hrec
  rw [if_pos (by norm_num)] at hrec
  rw [if_pos (by norm_num)] at hrec
  rw [hrec]

/-- C4 amended: get_all_face_embeddings_multi restricts the gallery to
active records, and when a non-empty embedding_type (resp. nonzero
embedding_dim) argument is supplied it silently skips records of another
type (resp. of mismatched vector length) without raising; but the
recognition path requests the gallery with no type and no dimension
filter, so the gallery matched against contains all active embeddings
regardless of embedding type. -/
theorem C4_gallery_filters (s : Store) (t : String) (d : Nat)
    (ht : t ≠ "") (hd : d ≠ 0) :
    ((get_all_face_embeddings_multi s (some t) (some d)).1 =
      (s.records.filter fun r => r.is_active && (r.embedding_type == t) &&
        (r.embedding.length == d)).map (fun r => r.embedding)) ∧
    ((get_all_face_embeddings_multi s (some t) (some d)).2 =
      (s.records.filter fun r => r.is_active && (r.embedding_type == t) &&
        (r.embedding.length == d)).map (fun r => r.employee_code)) ∧
    ((get_all_face_embeddings_multi s none none).1 =
      (s.records.filter fun r => r.is_active).map (fun r => r.embedding)) := by
  have hbt : (t == "") = false := beq_eq_false_iff_ne.mpr ht
  have hbd : (d == 0) = false := beq_eq_false_iff_ne.mpr hd
  have hfilters : (s.records.filter
        (fun r => r.is_active && typeFilterOk (some t) r)).filter
        (fun r => dimFilterOk (some d) r.embedding.length) =
      s.records.filter fun r => r.is_active && (r.embedding_type == t) &&
        (r.embedding.length == d) := by
    rw [List.filter_filter]
    apply List.filter_congr
    intro r hr
    simp only [typeFilterOk, dimFilterOk, hbt, hbd, Bool.false_eq_true,
      if_false]
    cases r.is_active <;> cases hrt : r.embedding_type == t <;>
      cases hrd : r.embedding.length == d <;> simp
  refine ⟨?_, ?_, ?_⟩
  · show ((s.records.filter
        (fun r => r.is_active && typeFilterOk (some t) r)).filter
        (fun r => dimFilterOk (some d) r.embedding.length)).map
        (fun r => r.embedding) = _
    rw [hfilters]
  · show ((s.records.filter
        (fun r => r.is_active && typeFilterOk (some t) r)).filter
        (fun r => dimFilterOk (some d) r.embedding.length)).map
        (fun r => r.employee_code) = _
    rw [hfilters]
  · show ((s.records.filter
        (fun r => r.is_active && typeFilterOk none r)).filter
        (fun r => dimFilterOk none r.embedding.length)).map
        (fun r => r.embedding) = _
    have h1 : (s.records.filter (fun r => r.is_active && typeFilterOk none r)) =
        s.records.filter fun r => r.is_active := by
      apply List.filter_congr
      intro r hr
      simp [typeFilterOk]
    have h2 : ((s.records.filter fun r => r.is_active).filter
        (fun r => dimFilterOk none r.embedding.length)) =
        s.records.filter fun r => r.is_active := by
      rw [List.filter_eq_self]
      intro r hr
      rfl
    rw [h1, h2]

/-- Witness for the amended C4 on the mixed-type fixture store with the
type filter set to "standard" and the dimension filter to 2. -/
theorem C4_gallery_filters_witness :
    ("standard" ≠ "" ∧ (2 : Nat) ≠ 0) ∧
    ((get_all_face_embeddings_multi c4Store (some "standard") (some 2)).1 =
      (c4Store.records.filter fun r => r.is_active &&
        (r.embedding_type == "standard") &&
        (r.embedding.length == 2)).map (fun r => r.embedding)) ∧
    ((get_all_face_embeddings_multi c4Store none none).1 =
      (c4Store.records.filter fun r => r.is_active).map
        (fun r => r.embedding)) :=
  ⟨⟨by decide, by decide⟩,
    (C4_gallery_filters c4Store "standard" 2 (by decide) (by decide)).1,
    (C4_gallery_filters c4Store "standard" 2 (by decide) (by decide)).2.2⟩

/-- C8: detect_face_quality computes exactly the reference quality score —
blurry iff Laplacian variance < 100, dark iff mean grayscale brightness
< 50, small iff face-to-image area ratio < 0.01, score 30 each for not
blurry and not dark plus 20 for not small, plus the brightness and contrast
bonuses, capped at 100 — and a zero-size face region yields score 0 with
all three flags true, without raising. -/
theorem C8_quality_score (image : List (List Pixel))
    (top right bottom left : Nat) :
    (((cropRegion image top right bottom left).map
        (fun row => row.map grayOf)).flatten = [] →
      detect_face_quality image top right bottom left =
        { quality_score := 0, is_blurry := true, is_dark := true,
          is_small := true, brightness := 0, contrast := 0,
          laplacian_variance := none, face_ratio := none }) ∧
    (((cropRegion image top right bottom left).map
        (fun row => row.map grayOf)).flatten ≠ [] →
      ((detect_face_quality image top right bottom left).is_blurry = true ↔
        listVar (laplacianVals ((cropRegion image top right bottom left).map
          (fun row => row.map grayOf))) < 100) ∧
      ((detect_face_quality image top right bottom left).is_dark = true ↔
        listMean (((cropRegion image top right bottom left).map
          (fun row => row.map grayOf)).flatten) < 50) ∧
      ((detect_face_quality image top right bottom left).is_small = true ↔
        ((((bottom - top) * (right - left) : Nat) : ℚ) /
          ((image.length * (image.headD []).length : Nat) : ℚ)) < 1 / 100) ∧
      (detect_face_quality image top right bottom left).quality_score =
        specQualityScore
          (detect_face_quality image top right bottom left).is_blurry
          (detect_face_quality image top right bottom left).is_dark
          (detect_face_quality image top right bottom left).is_small
          (detect_face_quality image top right bottom left).brightness
          (detect_face_quality image top right bottom left).contrast) := by
  constructor
  · intro h
    have hE : (((cropRegion image top right bottom left).map
        (fun row => row.map grayOf)).flatten).isEmpty = true := by
      rw [List.isEmpty_iff]
      exact h
    unfold detect_face_quality
    simp only [hE, if_true]
  · intro h
    have hE : (((cropRegion image top right bottom left).map
        (fun row => row.map grayOf)).flatten).isEmpty = false := by
      rw [List.isEmpty_eq_false]
      exact h
    unfold detect_face_quality
    simp only [hE, Bool.false_eq_true, if_false]
    refine ⟨by simp, by simp, by simp, ?_⟩
    unfold specQualityScore
    have hB : ∀ B : ℚ,
        (if B ∈ Set.Icc (50 : ℚ) 200 then (10 : Nat)
         else if B ∈ Set.Ico (30 : ℚ) 50 ∪ Set.Ioc (200 : ℚ) 250 then 5
         else 0) =
        (if 50 ≤ B ∧ B ≤ 200 then (10 : Nat)
         else if (30 ≤ B ∧ B < 50) ∨ (200 < B ∧ B ≤ 250) then 5
         else 0) := by
      intro B
      simp only [Set.mem_Icc, Set.mem_Ico, Set.mem_Ioc, Set.mem_union]
    rw [hB]

/-- Witness for C8: the degenerate branch on an empty image with an empty
box, and the scoring branch on the one-pixel image with the full box. -/
theorem C8_quality_score_witness :
    (detect_face_quality [] 0 0 0 0 =
      { quality_score := 0, is_blurry := true, is_dark := true,
        is_small := true, brightness := 0, contrast := 0,
        laplacian_variance := none, face_ratio := none }) ∧
    (((cropRegion c8Img 0 1 1 0).map (fun row => row.map grayOf)).flatten ≠ [] ∧
      (((detect_face_quality c8Img 0 1 1 0).is_blurry = true ↔
        listVar (laplacianVals ((cropRegion c8Img 0 1 1 0).map
          (fun row => row.map grayOf))) < 100) ∧
      ((detect_face_quality c8Img 0 1 1 0).is_dark = true ↔
        listMean (((cropRegion c8Img 0 1 1 0).map
          (fun row => row.map grayOf)).flatten) < 50) ∧
      ((detect_face_quality c8Img 0 1 1 0).is_small = true ↔
        ((((1 - 0) * (1 - 0) : Nat) : ℚ) /
          ((c8Img.length * (c8Img.headD []).length : Nat) : ℚ)) < 1 / 100) ∧
      (detect_face_quality c8Img 0 1 1 0).quality_score =
        specQualityScore
          (detect_face_quality c8Img 0 1 1 0).is_blurry
          (detect_face_quality c8Img 0 1 1 0).is_dark
          (detect_face_quality c8Img 0 1 1 0).is_small
          (detect_face_quality c8Img 0 1 1 0).brightness
          (detect_face_quality c8Img 0 1 1 0).contrast)) :=
  ⟨(C8_quality_score [] 0 0 0 0).1 (by decide),
   ⟨by decide, (C8_quality_score c8Img 0 1 1 0).2 (by decide)⟩⟩

end AttendanceFace
